import Mathlib

/-
Verification of the real-time trip-coordination core of a ride-hailing
client.  The relevant source units are:

* `src/src/contexts/LocationContext.tsx` — location permission/tracking
  state and the pure trip math (`calculateDistance`, `calculateETA`);
* `src/src/pages/TripBooking.tsx` — vehicle rate tables and
  `calculateTripDetails` (distance/ETA/fare quote);
* `src/unnamed/part_000` — the socket context (room joins, event
  subscriptions, connect handler).

Numeric code is embedded over `ℝ` (the source computes with float64;
`Math.round` is `⌊x + 1/2⌋`, `Math.ceil` is `Int.ceil`).  The stateful
React contexts are embedded as explicit state-passing functions: each
`useState` cell becomes a structure field, and a call that both returns a
value and performs `setX`/`socket.emit` side effects returns the new state
together with the list of emissions it produced.
-/

namespace RideHail

/-! ## TripMath (LocationContext.tsx lines 175-188) -/

/-- `Math.atan2 y x` (note the JavaScript argument order), written with the
standard piecewise characterisation in terms of `Real.arctan`. -/
noncomputable def atan2 (y x : ℝ) : ℝ :=
  if 0 < x then Real.arctan (y / x)
  else if x < 0 ∧ 0 ≤ y then Real.arctan (y / x) + Real.pi
  else if x < 0 ∧ y < 0 then Real.arctan (y / x) - Real.pi
  else if x = 0 ∧ 0 < y then Real.pi / 2
  else if x = 0 ∧ y < 0 then -(Real.pi / 2)
  else 0

/-- The local `a` of `calculateDistance` (LocationContext.tsx lines 179-181):
`sin(dLat/2)·sin(dLat/2) + cos(lat1·π/180)·cos(lat2·π/180)·sin(dLon/2)·sin(dLon/2)`
with `dLat = (lat2-lat1)·π/180` and `dLon = (lon2-lon1)·π/180`. -/
noncomputable def haversineTerm (lat1 lon1 lat2 lon2 : ℝ) : ℝ :=
  Real.sin ((lat2 - lat1) * Real.pi / 180 / 2) *
      Real.sin ((lat2 - lat1) * Real.pi / 180 / 2) +
    Real.cos (lat1 * Real.pi / 180) * Real.cos (lat2 * Real.pi / 180) *
      Real.sin ((lon2 - lon1) * Real.pi / 180 / 2) *
      Real.sin ((lon2 - lon1) * Real.pi / 180 / 2)

/-- `calculateDistance` (LocationContext.tsx lines 175-184): haversine
distance with Earth radius `R = 6371`, `c = 2·atan2(√a, √(1-a))`,
result `R·c`. -/
noncomputable def calculateDistance (lat1 lon1 lat2 lon2 : ℝ) : ℝ :=
  6371 * (2 * atan2 (Real.sqrt (haversineTerm lat1 lon1 lat2 lon2))
    (Real.sqrt (1 - haversineTerm lat1 lon1 lat2 lon2)))

/-- `calculateETA` (LocationContext.tsx lines 186-188):
`Math.ceil((distance / averageSpeed) * 60)` with default speed 30. -/
noncomputable def calculateETA (distance : ℝ) (averageSpeed : ℝ := 30) : ℤ :=
  ⌈distance / averageSpeed * 60⌉

/-- JavaScript `Math.round`: round half toward positive infinity. -/
noncomputable def jsRound (x : ℝ) : ℤ := ⌊x + 1 / 2⌋

/-! ## Vehicle rate tables (TripBooking.tsx lines 13-55) -/

/-- The `Vehicle` interface of TripBooking.tsx (lines 13-22). -/
structure Vehicle where
  type : String
  name : String
  description : String
  baseFare : ℝ
  perKmRate : ℝ
  perMinuteRate : ℝ
  icon : String
  eta : String

/-- The `economy` entry of `vehicles` (TripBooking.tsx lines 25-33). -/
noncomputable def economy : Vehicle :=
  ⟨"economy", "Economy", "Affordable, everyday rides", 25, 12, 2.5, "car", "3-5 min"⟩

/-- The `comfort` entry of `vehicles` (TripBooking.tsx lines 34-43). -/
noncomputable def comfort : Vehicle :=
  ⟨"comfort", "Comfort", "Newer cars with extra legroom", 35, 15, 3.0, "car-front", "2-4 min"⟩

/-- The `premium` entry of `vehicles` (TripBooking.tsx lines 44-54). -/
noncomputable def premium : Vehicle :=
  ⟨"premium", "Premium", "Luxury cars for special occasions", 50, 20, 4.0, "car-taxi", "1-3 min"⟩

/-- The `vehicles` array (TripBooking.tsx lines 24-55). -/
noncomputable def vehicles : List Vehicle := [economy, comfort, premium]

/-- The fare expression of `calculateTripDetails` (TripBooking.tsx lines
98-102): `Math.round(baseFare + distanceKm·perKmRate + estimatedMinutes·perMinuteRate)`. -/
noncomputable def estimateFare (v : Vehicle) (distanceKm : ℝ) (etaMinutes : ℤ) : ℤ :=
  jsRound (v.baseFare + distanceKm * v.perKmRate + (etaMinutes : ℝ) * v.perMinuteRate)

/-- `calculateTripDetails` (TripBooking.tsx lines 83-104) for a pickup at
`(lat, lon)`; the mock dropoff is the pickup shifted by `(+0.05, +0.05)`
(lines 71-75).  Returns the three values stored by `setDistance`
(`Math.round(distanceKm·10)/10`), `setEstimatedTime` and `setEstimatedFare`. -/
noncomputable def calculateTripDetails (lat lon : ℝ) (v : Vehicle) : ℝ × ℤ × ℤ :=
  (((jsRound (calculateDistance lat lon (lat + 0.05) (lon + 0.05) * 10) : ℝ)) / 10,
   calculateETA (calculateDistance lat lon (lat + 0.05) (lon + 0.05)),
   estimateFare v (calculateDistance lat lon (lat + 0.05) (lon + 0.05))
     (calculateETA (calculateDistance lat lon (lat + 0.05) (lon + 0.05))))

/-! ## Socket context (src/unnamed/part_000)

A socket.io client socket is modelled by its listener table: the list of
`(eventName, handler)` registrations in registration order (socket.io
invokes the listeners of an event in that order).  Handlers are opaque
and named by natural numbers.  The provider's two `useState` cells
(`socket`, `isConnected`) form `SocketCtx`. -/

/-- A live socket.io socket: its registered listeners, in registration order. -/
structure SocketState where
  handlers : List (String × Nat)
deriving DecidableEq

/-- The `SocketProvider` state (part_000 lines 36-37): the `socket` cell
(absent until socket setup ran, reset to absent by `disconnectSocket`)
and the `isConnected` flag. -/
structure SocketCtx where
  socket : Option SocketState
  isConnected : Bool
deriving DecidableEq

/-- `socket.on(event, callback)`: append a listener. -/
def socketOn (s : SocketState) (event : String) (h : Nat) : SocketState :=
  ⟨s.handlers ++ [(event, h)]⟩

/-- `onTripStatusUpdate` (part_000 lines 171-176): registers the callback
for `trip-status` when a socket exists; otherwise does nothing (and
returns `undefined`). -/
def onTripStatusUpdate (st : SocketCtx) (h : Nat) : SocketCtx :=
  match st.socket with
  | some s => { st with socket := some (socketOn s "trip-status" h) }
  | none => st

/-- `onDriverLocationUpdate` (part_000 lines 178-183): registers the callback
for `driver-location` when a socket exists; otherwise does nothing. -/
def onDriverLocationUpdate (st : SocketCtx) (h : Nat) : SocketCtx :=
  match st.socket with
  | some s => { st with socket := some (socketOn s "driver-location" h) }
  | none => st

/-- Delivery of an inbound event: socket.io invokes the current socket's
listeners registered for that event name, in registration order.  Returns
the invoked handlers.  With no socket, nothing is invoked. -/
def dispatch (st : SocketCtx) (event : String) : List Nat :=
  match st.socket with
  | some s => (s.handlers.filter (fun p => p.1 == event)).map Prod.snd
  | none => []

/-- A `socket.emit(event, payload)` call sent to the server. -/
structure Emission where
  event : String
  payload : String
deriving DecidableEq

/-- `joinTripRoom` (part_000 lines 107-111): emits `join-room` for
`trip-<tripId>` only when a socket exists and `isConnected`; otherwise a
pure no-op.  The provider state is never modified. -/
def joinTripRoom (st : SocketCtx) (tripId : String) : SocketCtx × List Emission :=
  match st.socket with
  | some _ =>
    if st.isConnected then (st, [⟨"join-room", "trip-" ++ tripId⟩]) else (st, [])
  | none => (st, [])

/-- `leaveTripRoom` (part_000 lines 113-117): emits `leave-room` for
`trip-<tripId>` only when a socket exists and `isConnected`. -/
def leaveTripRoom (st : SocketCtx) (tripId : String) : SocketCtx × List Emission :=
  match st.socket with
  | some _ =>
    if st.isConnected then (st, [⟨"leave-room", "trip-" ++ tripId⟩]) else (st, [])
  | none => (st, [])

/-- The logged-in user as seen by the socket provider. -/
structure User where
  id : String
  userType : String

/-- The `connect` handler installed during socket setup (part_000 lines
62-70): sets `isConnected` and, when a user is logged in, emits
`join-room` for `user-<id>` and for `<userType>s`. -/
def connectHandler (u : Option User) (st : SocketCtx) : SocketCtx × List Emission :=
  match u with
  | some user =>
    ({ st with isConnected := true },
     [⟨"join-room", "user-" ++ user.id⟩, ⟨"join-room", user.userType ++ "s"⟩])
  | none => ({ st with isConnected := true }, [])

/-- The externally visible happenings at the socket provider, used to
state delivery properties over traces:
`newSocket` is the `setSocket(newSocket)` of socket setup (a fresh socket
with an empty listener table replaces the current one), `connectEvt` /
`disconnectEvt` are the transport-level `connect` / `disconnect` events
(part_000 lines 62-75; they only toggle `isConnected`),
`subscribeStatus` is an `onTripStatusUpdate` call, and `inboundStatus` is
an inbound `trip-status` event from the server. -/
inductive SockOp where
  | newSocket
  | connectEvt
  | disconnectEvt
  | subscribeStatus (h : Nat)
  | inboundStatus
deriving DecidableEq

/-- One step of the socket provider; returns the handlers invoked by the step. -/
def sockStep (st : SocketCtx) : SockOp → SocketCtx × List Nat
  | .newSocket => ({ st with socket := some ⟨[]⟩ }, [])
  | .connectEvt => ({ st with isConnected := true }, [])
  | .disconnectEvt => ({ st with isConnected := false }, [])
  | .subscribeStatus h => (onTripStatusUpdate st h, [])
  | .inboundStatus => (st, dispatch st "trip-status")

/-- Run a trace of socket operations, collecting all handler invocations. -/
def runOps (st : SocketCtx) : List SockOp → SocketCtx × List Nat
  | [] => (st, [])
  | op :: ops =>
    ((runOps (sockStep st op).1 ops).1, (sockStep st op).2 ++ (runOps (sockStep st op).1 ops).2)

/-- Transport-level connection-state transitions: those that only toggle
`isConnected` and leave the socket instance (and its listener table) alive. -/
def transportOnly (ops : List SockOp) : Prop :=
  ∀ op ∈ ops, op = SockOp.connectEvt ∨ op = SockOp.disconnectEvt

/-! ## Location provider (LocationContext.tsx lines 38-173)

The four `useState` cells become fields of `LocState`; the hardware watch
registry of the Geolocation plugin is modelled by `activeWatches` (the
identifiers of currently active hardware subscriptions) plus a fresh-id
counter, so that "creates a hardware watch subscription" is visible in
the state. -/

/-- A location fix (only the coordinates matter for these claims). -/
structure GeoLocation where
  latitude : ℝ
  longitude : ℝ

/-- The `LocationProvider` state (LocationContext.tsx lines 39-42)
together with the hardware watch registry. -/
structure LocState where
  currentLocation : Option GeoLocation
  locationPermission : Option Bool
  isTracking : Bool
  watchId : Option Nat
  nextWatchId : Nat
  activeWatches : List Nat

/-- `startLocationTracking` (LocationContext.tsx lines 116-163).
`!locationPermission` is true when the permission cell is `null` or
`false`, so the guard is `locationPermission ≠ some true`.  Otherwise, if
already tracking, return `true` without touching anything; otherwise
`Geolocation.watchPosition` creates a fresh hardware subscription and its
resolution stores the id and sets `isTracking`. -/
def startLocationTracking (st : LocState) : Bool × LocState :=
  if st.locationPermission ≠ some true then (false, st)
  else if st.isTracking then (true, st)
  else (true, { st with watchId := some st.nextWatchId, isTracking := true,
                        nextWatchId := st.nextWatchId + 1,
                        activeWatches := st.activeWatches ++ [st.nextWatchId] })

/-- `stopLocationTracking` (LocationContext.tsx lines 165-173): when a
watch id is stored, clear the hardware watch and the provider state and
return `true`; otherwise return `false`. -/
def stopLocationTracking (st : LocState) : Bool × LocState :=
  match st.watchId with
  | some id => (true, { st with watchId := none, isTracking := false,
                                activeWatches := st.activeWatches.erase id })
  | none => (false, st)

/-- Operations of one `LocationProvider` instance that can affect the
tracking session: a permission decision landing, and the two tracking calls. -/
inductive LocOp where
  | setPermission (granted : Bool)
  | startTracking
  | stopTracking
deriving DecidableEq

/-- One provider step (return values discarded). -/
def locStep (st : LocState) : LocOp → LocState
  | .setPermission g => { st with locationPermission := some g }
  | .startTracking => (startLocationTracking st).2
  | .stopTracking => (stopLocationTracking st).2

/-- The provider's initial state (LocationContext.tsx lines 39-42): no
fix, undecided permission, not tracking, no watch; hardware registry empty. -/
def initLocState : LocState := ⟨none, none, false, none, 0, []⟩

/-- The tracking-session invariant: either no session (not tracking, no
stored id, no hardware subscription) or exactly one. -/
def LocInv (st : LocState) : Prop :=
  (st.isTracking = false ∧ st.watchId = none ∧ st.activeWatches = []) ∨
  (∃ id, st.isTracking = true ∧ st.watchId = some id ∧ st.activeWatches = [id])

/-! ## Helper lemmas: traces -/

lemma runOps_append (as bs : List SockOp) : ∀ st : SocketCtx,
    runOps st (as ++ bs) =
      ((runOps (runOps st as).1 bs).1,
        (runOps st as).2 ++ (runOps (runOps st as).1 bs).2) := by
  induction as with
  | nil => intro st; simp [runOps]
  | cons a as ih => intro st; simp [runOps, ih, List.append_assoc]

lemma runOps_transport (ops : List SockOp) : ∀ st : SocketCtx, transportOnly ops →
    (runOps st ops).1.socket = st.socket ∧ (runOps st ops).2 = [] := by
  induction ops with
  | nil => intro st _; exact ⟨rfl, rfl⟩
  | cons op ops ih =>
    intro st htr
    have hop := htr op (List.mem_cons_self _ _)
    have htl : transportOnly ops := fun o ho => htr o (List.mem_cons_of_mem _ ho)
    rcases hop with h | h <;> subst h <;>
      simpa [runOps, sockStep] using ih _ htl

lemma locInv_step (st : LocState) (h : LocInv st) (op : LocOp) : LocInv (locStep st op) := by
  cases op with
  | setPermission g =>
    rcases h with ⟨h1, h2, h3⟩ | ⟨id, h1, h2, h3⟩
    · exact Or.inl ⟨h1, h2, h3⟩
    · exact Or.inr ⟨id, h1, h2, h3⟩
  | startTracking =>
    by_cases hp : st.locationPermission ≠ some true
    · simpa [locStep, startLocationTracking, hp] using h
    · by_cases ht : st.isTracking
      · simpa [locStep, startLocationTracking, hp, ht] using h
      · rcases h with ⟨h1, h2, h3⟩ | ⟨id, h1, h2, h3⟩
        · refine Or.inr ⟨st.nextWatchId, ?_, ?_, ?_⟩ <;>
            simp [locStep, startLocationTracking, hp, ht, h3]
        · exact absurd h1 (by simpa using ht)
  | stopTracking =>
    cases hw : st.watchId with
    | none => simpa [locStep, stopLocationTracking, hw] using h
    | some id =>
      rcases h with ⟨h1, h2, h3⟩ | ⟨id', h1, h2, h3⟩
      · exact absurd h2 (by simp [hw])
      · have : id' = id := by rw [hw] at h2; exact (Option.some_inj.mp h2).symm
        subst this
        refine Or.inl ⟨?_, ?_, ?_⟩ <;>
          simp [locStep, stopLocationTracking, hw, h3, List.erase_cons_head]

lemma locInv_run (ops : List LocOp) : ∀ st : LocState, LocInv st →
    LocInv (List.foldl locStep st ops) := by
  induction ops with
  | nil => intro st h; exact h
  | cons op ops ih => intro st h; exact ih _ (locInv_step st h op)

lemma locInv_length {st : LocState} (h : LocInv st) : st.activeWatches.length ≤ 1 := by
  rcases h with ⟨-, -, h3⟩ | ⟨id, -, -, h3⟩ <;> simp [h3]

/-! ## Claims C3, C4, C5, C6, C9 -/

/-- C3 (counterexample): handler 7 is registered through
`onTripStatusUpdate` on the live socket, but after the connection-state
transitions disconnect → socket replacement → connect (the credential-loss
/ re-login path, part_000 lines 40-50) an inbound `trip-status` event does
not invoke it: registrations do not survive socket recreation, refuting
"invoked for every inbound event of that kind regardless of
connection-state transitions in between". -/
theorem claim_C3_counterexample :
    7 ∉ (runOps ⟨some ⟨[]⟩, true⟩
      [SockOp.subscribeStatus 7, SockOp.disconnectEvt, SockOp.newSocket,
       SockOp.connectEvt, SockOp.inboundStatus]).2 := by
  decide

/-- C3 (amended): a handler registered through a subscription function on
a live socket is invoked for every inbound event of its kind as long as
only transport-level connection transitions (connect/disconnect toggling
`isConnected`) occur in between, and all subscribers of one kind are
invoked in subscription order (previously registered `trip-status`
handlers first, then the new one); but registrations do not survive
socket teardown/recreation. -/
theorem claim_C3 (st : SocketCtx) (s : SocketState) (h : Nat) (ops : List SockOp)
    (hsock : st.socket = some s) (htr : transportOnly ops) :
    (runOps st (SockOp.subscribeStatus h :: (ops ++ [SockOp.inboundStatus]))).2
      = (s.handlers.filter (fun p => p.1 == "trip-status")).map Prod.snd ++ [h] := by
  have hsub : onTripStatusUpdate st h
      = { st with socket := some (socketOn s "trip-status" h) } := by
    simp [onTripStatusUpdate, hsock]
  have htrans := runOps_transport ops
    { st with socket := some (socketOn s "trip-status" h) } htr
  simp only [runOps, sockStep, hsub, runOps_append]
  rw [htrans.2]
  simp only [List.nil_append, List.append_nil]
  simp only [runOps, sockStep, dispatch, List.append_nil]
  rw [htrans.1]
  simp [socketOn, List.filter_append]

/-- C3 witness: two pre-registered handlers (3 for `trip-status`, 4 for
`driver-location`), a new subscription 7, a transport disconnect/connect
in between, then an inbound `trip-status`: handlers 3 and 7 fire, in
subscription order. -/
theorem claim_C3_witness :
    (runOps ⟨some ⟨[("trip-status", 3), ("driver-location", 4)]⟩, true⟩
      (SockOp.subscribeStatus 7 ::
        ([SockOp.disconnectEvt, SockOp.connectEvt] ++ [SockOp.inboundStatus]))).2
      = [3, 7] := by
  rw [claim_C3 _ ⟨[("trip-status", 3), ("driver-location", 4)]⟩ 7
    [SockOp.disconnectEvt, SockOp.connectEvt] rfl (by unfold transportOnly; decide)]
  decide

/-- C4: calling `joinTripRoom` or `leaveTripRoom` while the channel is not
connected (socket absent or `isConnected` false) is a pure no-op: nothing
is emitted, the provider state is unchanged, and no queued or deferred
effect exists (the model has no queue because the source has none: the
emit is simply skipped). -/
theorem claim_C4 (st : SocketCtx) (tripId : String)
    (h : st.socket = none ∨ st.isConnected = false) :
    joinTripRoom st tripId = (st, []) ∧ leaveTripRoom st tripId = (st, []) := by
  rcases h with h | h
  · simp [joinTripRoom, leaveTripRoom, h]
  · cases hs : st.socket with
    | none => simp [joinTripRoom, leaveTripRoom, hs]
    | some s => simp [joinTripRoom, leaveTripRoom, hs, h]

/-- C4 witness: a live but disconnected socket; join/leave do nothing. -/
theorem claim_C4_witness :
    joinTripRoom ⟨some ⟨[]⟩, false⟩ "t1" = (⟨some ⟨[]⟩, false⟩, []) ∧
      leaveTripRoom ⟨some ⟨[]⟩, false⟩ "t1" = (⟨some ⟨[]⟩, false⟩, []) :=
  claim_C4 ⟨some ⟨[]⟩, false⟩ "t1" (Or.inr rfl)

/-- C5: `startLocationTracking` is idempotent while tracking is active:
with permission granted and `isTracking` true it reports success and
returns with the entire state unchanged (same `watchId`, no new hardware
subscription); moreover along any operation sequence from the initial
state at most one hardware watch subscription is ever active. -/
theorem claim_C5 :
    (∀ st : LocState, st.locationPermission = some true → st.isTracking = true →
        startLocationTracking st = (true, st)) ∧
      ∀ ops : List LocOp, (List.foldl locStep initLocState ops).activeWatches.length ≤ 1 := by
  constructor
  · intro st hp ht
    simp [startLocationTracking, hp, ht]
  · intro ops
    exact locInv_length (locInv_run ops initLocState (Or.inl ⟨rfl, rfl, rfl⟩))

/-- C5 witness: a granted-and-tracking state is returned unchanged with
success, and a grant/start/start sequence leaves one active watch. -/
theorem claim_C5_witness :
    startLocationTracking ⟨none, some true, true, some 0, 1, [0]⟩
        = (true, ⟨none, some true, true, some 0, 1, [0]⟩) ∧
      (List.foldl locStep initLocState
        [LocOp.setPermission true, LocOp.startTracking, LocOp.startTracking]).activeWatches.length ≤ 1 :=
  ⟨claim_C5.1 _ rfl rfl, claim_C5.2 _⟩

/-- C6: whenever the connect handler fires with a logged-in user, it sets
`isConnected` and emits `join-room` for exactly the two rooms
`user-<userId>` and `<userType>s`, in that order, with those exact strings. -/
theorem claim_C6 (st : SocketCtx) (u : User) :
    (connectHandler (some u) st).2
        = [⟨"join-room", "user-" ++ u.id⟩, ⟨"join-room", u.userType ++ "s"⟩] ∧
      (connectHandler (some u) st).1.isConnected = true :=
  ⟨rfl, rfl⟩

/-- C9: if permission is not granted (`locationPermission` null or false),
`startLocationTracking` returns `false` and the whole state — including
`isTracking`, `watchId`, `currentLocation` and the hardware registry — is
untouched. -/
theorem claim_C9 (st : LocState)
    (h : st.locationPermission = none ∨ st.locationPermission = some false) :
    startLocationTracking st = (false, st) := by
  rcases h with h | h <;> simp [startLocationTracking, h]

/-- C9 witness: the initial state (permission undecided). -/
theorem claim_C9_witness : startLocationTracking initLocState = (false, initLocState) :=
  claim_C9 initLocState (Or.inl rfl)

/-! ## Claims C2 and C8: fare arithmetic -/

lemma estimateFare_mono (v : Vehicle) (hk : 0 ≤ v.perKmRate) (hm : 0 ≤ v.perMinuteRate)
    {d1 d2 : ℝ} {e1 e2 : ℤ} (hd : d1 ≤ d2) (he : e1 ≤ e2) :
    estimateFare v d1 e1 ≤ estimateFare v d2 e2 := by
  unfold estimateFare jsRound
  apply Int.floor_mono
  have hcast : (e1 : ℝ) ≤ (e2 : ℝ) := Int.cast_le.mpr he
  have h1 := mul_le_mul_of_nonneg_right hd hk
  have h2 := mul_le_mul_of_nonneg_right hcast hm
  linarith

/-- C2 (counterexample): for the negative distance `-30` the code produces
plain numeric results — `calculateETA` returns `-60` and the economy fare
formula returns `-485` — rather than failing with `InvalidArgument` (no
such error exists anywhere in the source). -/
theorem claim_C2_counterexample :
    calculateETA (-30) 30 = -60 ∧
      estimateFare economy (-30) (calculateETA (-30) 30) = -485 := by
  have heta : calculateETA (-30) 30 = -60 := by
    unfold calculateETA
    rw [show ((-30 : ℝ)) / 30 * 60 = ((-60 : ℤ) : ℝ) by norm_num, Int.ceil_intCast]
  refine ⟨heta, ?_⟩
  rw [heta]
  unfold estimateFare jsRound economy
  rw [show (25 : ℝ) + (-30) * 12 + ((-60 : ℤ) : ℝ) * 2.5 + 1 / 2
      = (-484.5 : ℝ) by push_cast; norm_num]
  rw [Int.floor_eq_iff]
  norm_num

/-- C2 (amended): negative distances are not validated: `calculateETA`
returns a non-positive numeric ETA and the fare formula incorporates the
negative distance, yielding a numeric fare no greater than the base fare;
no `InvalidArgument` failure occurs. -/
theorem claim_C2 (d : ℝ) (hd : d < 0) :
    calculateETA d 30 ≤ 0 ∧ estimateFare economy d (calculateETA d 30) ≤ 25 := by
  have heta : calculateETA d 30 ≤ 0 := by
    unfold calculateETA
    rw [Int.ceil_le]
    push_cast
    linarith
  refine ⟨heta, ?_⟩
  have hcast : ((calculateETA d 30 : ℤ) : ℝ) ≤ 0 := by exact_mod_cast heta
  unfold estimateFare jsRound economy
  calc ⌊(25 : ℝ) + d * 12 + ((calculateETA d 30 : ℤ) : ℝ) * 2.5 + 1 / 2⌋
      ≤ ⌊(25.5 : ℝ)⌋ := Int.floor_mono (by nlinarith)
    _ = 25 := by
        rw [Int.floor_eq_iff]
        norm_num

/-- C2 witness: the instance at distance `-30`. -/
theorem claim_C2_witness :
    (-30 : ℝ) < 0 ∧ calculateETA (-30) 30 ≤ 0 ∧
      estimateFare economy (-30) (calculateETA (-30) 30) ≤ 25 :=
  ⟨by norm_num, (claim_C2 (-30) (by norm_num)).1, (claim_C2 (-30) (by norm_num)).2⟩

/-- C8: for each of the three vehicle rate tables of TripBooking, the fare
`round(baseFare + distanceKm·perKmRate + etaMinutes·perMinuteRate)` is
monotonically non-decreasing in `distanceKm` and in `etaMinutes`. -/
theorem claim_C8 (v : Vehicle) (hv : v ∈ vehicles) (d1 d2 : ℝ) (e1 e2 : ℤ)
    (hd : d1 ≤ d2) (he : e1 ≤ e2) : estimateFare v d1 e1 ≤ estimateFare v d2 e2 := by
  have hv' : v = economy ∨ v = comfort ∨ v = premium := by
    simpa [vehicles] using hv
  rcases hv' with h | h | h <;> subst h <;>
    exact estimateFare_mono _ (by norm_num [economy, comfort, premium])
      (by norm_num [economy, comfort, premium]) hd he

/-- C8 witness: the economy table at distances 1 ≤ 2 and ETAs 3 ≤ 4. -/
theorem claim_C8_witness :
    economy ∈ vehicles ∧ (1 : ℝ) ≤ 2 ∧ (3 : ℤ) ≤ 4 ∧
      estimateFare economy 1 3 ≤ estimateFare economy 2 4 :=
  ⟨by simp [vehicles], by norm_num, by decide,
    claim_C8 economy (by simp [vehicles]) 1 2 3 4 (by norm_num) (by decide)⟩

/-! ## Claims C7 and C10: haversine algebra -/

lemma haversineTerm_symm (lat1 lon1 lat2 lon2 : ℝ) :
    haversineTerm lat1 lon1 lat2 lon2 = haversineTerm lat2 lon2 lat1 lon1 := by
  unfold haversineTerm
  rw [show (lat1 - lat2) * Real.pi / 180 / 2 = -((lat2 - lat1) * Real.pi / 180 / 2) by ring,
    show (lon1 - lon2) * Real.pi / 180 / 2 = -((lon2 - lon1) * Real.pi / 180 / 2) by ring]
  simp only [Real.sin_neg]
  ring

lemma haversineTerm_self (lat lon : ℝ) : haversineTerm lat lon lat lon = 0 := by
  unfold haversineTerm
  rw [show (lat - lat) * Real.pi / 180 / 2 = 0 by ring,
    show (lon - lon) * Real.pi / 180 / 2 = 0 by ring, Real.sin_zero]
  ring

/-- The local `a` of `calculateDistance` rewritten through the half-angle
formula: `a = (1 - (sin φ₁ sin φ₂ + cos φ₁ cos φ₂ cos Δλ)) / 2`, the
cosine of the central angle. -/
lemma haversineTerm_eq (lat1 lon1 lat2 lon2 : ℝ) :
    haversineTerm lat1 lon1 lat2 lon2
      = (1 - (Real.sin (lat1 * Real.pi / 180) * Real.sin (lat2 * Real.pi / 180)
          + Real.cos (lat1 * Real.pi / 180) * Real.cos (lat2 * Real.pi / 180)
            * Real.cos ((lon2 - lon1) * Real.pi / 180))) / 2 := by
  have hu := Real.sin_sq_eq_half_sub ((lat2 - lat1) * Real.pi / 180 / 2)
  have hv := Real.sin_sq_eq_half_sub ((lon2 - lon1) * Real.pi / 180 / 2)
  rw [show 2 * ((lat2 - lat1) * Real.pi / 180 / 2)
      = lat2 * Real.pi / 180 - lat1 * Real.pi / 180 by ring, Real.cos_sub] at hu
  rw [show 2 * ((lon2 - lon1) * Real.pi / 180 / 2)
      = (lon2 - lon1) * Real.pi / 180 by ring] at hv
  unfold haversineTerm
  linear_combination hu
    + (Real.cos (lat1 * Real.pi / 180) * Real.cos (lat2 * Real.pi / 180)) * hv

/-- Under real-number semantics the intermediate `a` always lies in `[0, 1]`. -/
lemma haversineTerm_mem (lat1 lon1 lat2 lon2 : ℝ) :
    0 ≤ haversineTerm lat1 lon1 lat2 lon2 ∧ haversineTerm lat1 lon1 lat2 lon2 ≤ 1 := by
  rw [haversineTerm_eq]
  set s1 := Real.sin (lat1 * Real.pi / 180)
  set s2 := Real.sin (lat2 * Real.pi / 180)
  set c1 := Real.cos (lat1 * Real.pi / 180)
  set c2 := Real.cos (lat2 * Real.pi / 180)
  set x := Real.cos ((lon2 - lon1) * Real.pi / 180)
  have p1 : s1 ^ 2 + c1 ^ 2 = 1 := Real.sin_sq_add_cos_sq _
  have p2 : s2 ^ 2 + c2 ^ 2 = 1 := Real.sin_sq_add_cos_sq _
  have hx1 : -1 ≤ x := Real.neg_one_le_cos _
  have hx2 : x ≤ 1 := Real.cos_le_one _
  have hA : 0 ≤ 1 - s1 * s2 - c1 * c2 := by
    nlinarith [sq_nonneg (s1 - s2), sq_nonneg (c1 - c2)]
  have hB : 0 ≤ 1 - s1 * s2 + c1 * c2 := by
    nlinarith [sq_nonneg (s1 - s2), sq_nonneg (c1 + c2)]
  have hC : 0 ≤ 1 + s1 * s2 - c1 * c2 := by
    nlinarith [sq_nonneg (s1 + s2), sq_nonneg (c1 + c2)]
  have hD : 0 ≤ 1 + s1 * s2 + c1 * c2 := by
    nlinarith [sq_nonneg (s1 + s2), sq_nonneg (c1 - c2)]
  constructor
  · nlinarith [mul_nonneg (by linarith : (0:ℝ) ≤ 1 + x) hA,
      mul_nonneg (by linarith : (0:ℝ) ≤ 1 - x) hB]
  · nlinarith [mul_nonneg (by linarith : (0:ℝ) ≤ 1 + x) hD,
      mul_nonneg (by linarith : (0:ℝ) ≤ 1 - x) hC]

lemma arctan_lt_self {t : ℝ} (h : 0 < t) : Real.arctan t < t := by
  have h1 : 0 < Real.arctan t := by
    have h0 := Real.arctan_strictMono h
    simpa [Real.arctan_zero] using h0
  have h3 := Real.lt_tan h1 (Real.arctan_lt_pi_div_two t)
  rwa [Real.tan_arctan] at h3

lemma lt_arctan_of_tan_lt {s t : ℝ} (hs0 : 0 < s) (hs : s < Real.pi / 2)
    (h : Real.tan s < t) : s < Real.arctan t := by
  have hmono := Real.arctan_strictMono h
  rwa [Real.arctan_tan (by linarith [Real.pi_pos]) hs] at hmono

/-- Range of `2⁻¹·c`: with `a ∈ [0,1]`, `atan2(√a, √(1-a)) ∈ [0, π/2]`. -/
lemma atan2_sqrt_mem {a : ℝ} (h0 : 0 ≤ a) (h1 : a ≤ 1) :
    0 ≤ atan2 (Real.sqrt a) (Real.sqrt (1 - a)) ∧
      atan2 (Real.sqrt a) (Real.sqrt (1 - a)) ≤ Real.pi / 2 := by
  rcases lt_or_eq_of_le h1 with hlt | heq
  · have hx : 0 < Real.sqrt (1 - a) := Real.sqrt_pos.mpr (by linarith)
    rw [atan2, if_pos hx]
    constructor
    · have hq : 0 ≤ Real.sqrt a / Real.sqrt (1 - a) :=
        div_nonneg (Real.sqrt_nonneg a) hx.le
      have := Real.arctan_strictMono.monotone hq
      simpa [Real.arctan_zero] using this
    · exact le_of_lt (Real.arctan_lt_pi_div_two _)
  · subst heq
    rw [atan2]
    rw [show (1:ℝ) - 1 = 0 by norm_num, Real.sqrt_zero, Real.sqrt_one]
    simp only [lt_self_iff_false, if_false, false_and, zero_lt_one, and_true, if_true]
    norm_num
    linarith [Real.pi_pos]

/-- C7: `calculateDistance` is symmetric in its two coordinate pairs
(exactly, over real semantics), and vanishes when both pairs coincide. -/
theorem claim_C7 :
    (∀ lat1 lon1 lat2 lon2 : ℝ,
        calculateDistance lat1 lon1 lat2 lon2 = calculateDistance lat2 lon2 lat1 lon1) ∧
      ∀ lat lon : ℝ, calculateDistance lat lon lat lon = 0 := by
  constructor
  · intro lat1 lon1 lat2 lon2
    unfold calculateDistance
    rw [haversineTerm_symm lat1 lon1 lat2 lon2]
  · intro lat lon
    unfold calculateDistance
    rw [haversineTerm_self, Real.sqrt_zero, sub_zero, Real.sqrt_one]
    rw [atan2, if_pos (by norm_num : (0:ℝ) < 1)]
    norm_num [Real.arctan_zero]

/-- C10: for all real inputs, `calculateDistance` is non-negative and at
most `π · 6371` (the intermediate `a` lies in `[0,1]`, so the arc term is
in `[0, π]`). -/
theorem claim_C10 (lat1 lon1 lat2 lon2 : ℝ) :
    0 ≤ calculateDistance lat1 lon1 lat2 lon2 ∧
      calculateDistance lat1 lon1 lat2 lon2 ≤ Real.pi * 6371 := by
  obtain ⟨h0, h1⟩ := haversineTerm_mem lat1 lon1 lat2 lon2
  obtain ⟨g0, g1⟩ := atan2_sqrt_mem h0 h1
  unfold calculateDistance
  constructor <;> nlinarith

/-! ## Claim C1: the quote for pickup (0,0), dropoff (0.05, 0.05), economy

The true values are distance ≈ 7.8627 km, ETA = 16 min and fare
`round(25 + d·12 + 16·2.5) = round(159.35) = 159`; the spec's 157 is an
arithmetic slip (its own formula gives 159.3, not 157.3).  The distance is
bracketed in `(7.85, 7.87)` by elementary interval arithmetic. -/

lemma haversineTerm_c1 :
    haversineTerm 0 0 0.05 0.05
      = Real.sin (Real.pi / 7200) * Real.sin (Real.pi / 7200)
          * (1 + Real.cos (Real.pi / 3600)) := by
  unfold haversineTerm
  rw [show ((0.05 : ℝ) - 0) * Real.pi / 180 / 2 = Real.pi / 7200 by ring,
    show (0 : ℝ) * Real.pi / 180 = 0 by ring,
    show (0.05 : ℝ) * Real.pi / 180 = Real.pi / 3600 by ring, Real.cos_zero]
  ring

lemma sin_c1_lo : (0.000436332 : ℝ) < Real.sin (Real.pi / 7200) := by
  have hp := Real.pi_gt_d6
  have hq := Real.pi_lt_d6
  have h0 : 0 < Real.pi / 7200 := by positivity
  have h1 : Real.pi / 7200 ≤ 1 := by linarith
  have hs := Real.sin_gt_sub_cube h0 h1
  have hub : Real.pi / 7200 < 0.0004363324 := by linarith
  have hcube : (Real.pi / 7200) ^ 3 < (0.0004363324 : ℝ) ^ 3 :=
    pow_lt_pow_left₀ hub h0.le (by norm_num)
  have hnum : ((0.0004363324 : ℝ)) ^ 3 / 4 < 0.000000000021 := by norm_num
  have hlb : (0.00043633222 : ℝ) < Real.pi / 7200 := by linarith
  linarith

lemma sin_c1_hi : Real.sin (Real.pi / 7200) < 0.0004363324 := by
  have hq := Real.pi_lt_d6
  have h0 : 0 < Real.pi / 7200 := by positivity
  have := Real.sin_lt h0
  linarith

lemma cos_c1_lo : (0.99999961 : ℝ) < Real.cos (Real.pi / 3600) := by
  have hq := Real.pi_lt_d6
  have h0 : 0 < Real.pi / 3600 := by positivity
  have hc := Real.one_sub_sq_div_two_lt_cos (ne_of_gt h0)
  have hub : Real.pi / 3600 < 0.0008726648 := by linarith
  have hsq : (Real.pi / 3600) ^ 2 < (0.0008726648 : ℝ) ^ 2 :=
    pow_lt_pow_left₀ hub h0.le (by norm_num)
  have hnum : ((0.0008726648 : ℝ)) ^ 2 / 2 < 0.00000039 := by norm_num
  linarith

lemma haversineTerm_c1_lo : (0.00000038076 : ℝ) < haversineTerm 0 0 0.05 0.05 := by
  rw [haversineTerm_c1]
  have hs := sin_c1_lo
  have hc := cos_c1_lo
  have hs2 : (0.000436332 : ℝ) * 0.000436332
      < Real.sin (Real.pi / 7200) * Real.sin (Real.pi / 7200) := by nlinarith
  have hc1 : (1.99999961 : ℝ) < 1 + Real.cos (Real.pi / 3600) := by linarith
  nlinarith

lemma haversineTerm_c1_hi : haversineTerm 0 0 0.05 0.05 < 0.00000038078 := by
  rw [haversineTerm_c1]
  have hs := sin_c1_hi
  have hs0 := sin_c1_lo
  have hc := Real.cos_le_one (Real.pi / 3600)
  have hs2 : Real.sin (Real.pi / 7200) * Real.sin (Real.pi / 7200)
      < (0.0004363324 : ℝ) * 0.0004363324 := by nlinarith
  nlinarith

lemma sqrt_hav_c1_lo : (0.000617055 : ℝ) < Real.sqrt (haversineTerm 0 0 0.05 0.05) := by
  rw [Real.lt_sqrt (by norm_num)]
  have := haversineTerm_c1_lo
  nlinarith

lemma sqrt_hav_c1_hi : Real.sqrt (haversineTerm 0 0 0.05 0.05) < 0.000617075 := by
  rw [Real.sqrt_lt' (by norm_num)]
  have := haversineTerm_c1_hi
  nlinarith

lemma sqrt_one_sub_hav_c1_lo :
    (0.99999961 : ℝ) < Real.sqrt (1 - haversineTerm 0 0 0.05 0.05) := by
  have h1 := haversineTerm_c1_hi
  have h2 := haversineTerm_c1_lo
  have hbase : (1 : ℝ) - haversineTerm 0 0 0.05 0.05
      ≤ Real.sqrt (1 - haversineTerm 0 0 0.05 0.05) := by
    rw [Real.le_sqrt (by linarith) (by linarith)]
    nlinarith
  linarith

lemma sqrt_one_sub_hav_c1_hi :
    Real.sqrt (1 - haversineTerm 0 0 0.05 0.05) ≤ 1 := by
  have h2 := haversineTerm_c1_lo
  have := Real.sqrt_le_sqrt (show (1 : ℝ) - haversineTerm 0 0 0.05 0.05 ≤ 1 by linarith)
  rwa [Real.sqrt_one] at this

lemma quot_c1_lo :
    (0.000617055 : ℝ) < Real.sqrt (haversineTerm 0 0 0.05 0.05)
      / Real.sqrt (1 - haversineTerm 0 0 0.05 0.05) := by
  have hpos : (0 : ℝ) < Real.sqrt (1 - haversineTerm 0 0 0.05 0.05) := by
    linarith [sqrt_one_sub_hav_c1_lo]
  rw [lt_div_iff₀ hpos]
  nlinarith [sqrt_hav_c1_lo, sqrt_one_sub_hav_c1_hi, hpos]

lemma quot_c1_hi :
    Real.sqrt (haversineTerm 0 0 0.05 0.05)
      / Real.sqrt (1 - haversineTerm 0 0 0.05 0.05) < 0.000617076 := by
  have hlo := sqrt_one_sub_hav_c1_lo
  have hpos : (0 : ℝ) < Real.sqrt (1 - haversineTerm 0 0 0.05 0.05) := by linarith
  rw [div_lt_iff₀ hpos]
  nlinarith [sqrt_hav_c1_hi]

lemma dist_c1_bounds :
    7.85 < calculateDistance 0 0 0.05 0.05 ∧ calculateDistance 0 0 0.05 0.05 < 7.87 := by
  have hpos : (0 : ℝ) < Real.sqrt (1 - haversineTerm 0 0 0.05 0.05) := by
    linarith [sqrt_one_sub_hav_c1_lo]
  have hunf : calculateDistance 0 0 0.05 0.05
      = 6371 * (2 * Real.arctan (Real.sqrt (haversineTerm 0 0 0.05 0.05)
          / Real.sqrt (1 - haversineTerm 0 0 0.05 0.05))) := by
    unfold calculateDistance atan2
    rw [if_pos hpos]
  have hqlo := quot_c1_lo
  have hqhi := quot_c1_hi
  constructor
  · -- lower bound via arctan t > 0.000617 (since tan 0.000617 < t)
    have hp := Real.pi_gt_d6
    have hs0 : (0 : ℝ) < 0.000617 := by norm_num
    have hs : (0.000617 : ℝ) < Real.pi / 2 := by linarith
    have hcos : (0.9999998 : ℝ) < Real.cos 0.000617 := by
      have := Real.one_sub_sq_div_two_lt_cos (show (0.000617 : ℝ) ≠ 0 by norm_num)
      nlinarith
    have hsin : Real.sin 0.000617 < 0.000617 := Real.sin_lt hs0
    have htan : Real.tan 0.000617 < 0.000617055 := by
      rw [Real.tan_eq_sin_div_cos, div_lt_iff₀ (by linarith)]
      have hc2 : Real.cos 0.000617 ≤ 1 := Real.cos_le_one _
      nlinarith
    have harc := lt_arctan_of_tan_lt hs0 hs (lt_trans htan hqlo)
    rw [hunf]
    nlinarith
  · have harc : Real.arctan (Real.sqrt (haversineTerm 0 0 0.05 0.05)
        / Real.sqrt (1 - haversineTerm 0 0 0.05 0.05)) < 0.000617076 := by
      have hq0 : (0 : ℝ) < Real.sqrt (haversineTerm 0 0 0.05 0.05)
          / Real.sqrt (1 - haversineTerm 0 0 0.05 0.05) := by linarith
      exact lt_trans (arctan_lt_self hq0) hqhi
    rw [hunf]
    nlinarith

lemma eta_c1 : calculateETA (calculateDistance 0 0 0.05 0.05) = 16 := by
  obtain ⟨h1, h2⟩ := dist_c1_bounds
  unfold calculateETA
  rw [Int.ceil_eq_iff]
  constructor
  · push_cast
    nlinarith
  · push_cast
    nlinarith

lemma fare_c1 : estimateFare economy (calculateDistance 0 0 0.05 0.05) 16 = 159 := by
  obtain ⟨h1, h2⟩ := dist_c1_bounds
  unfold estimateFare jsRound economy
  rw [Int.floor_eq_iff]
  constructor
  · push_cast
    nlinarith
  · push_cast
    nlinarith

/-- C1 (counterexample): the fare the code computes for pickup `(0,0)`,
dropoff `(0.05, 0.05)` with the economy table is not 157 (it is 159:
`round(25 + 7.8627·12 + 16·2.5) = round(159.35)`). -/
theorem claim_C1_counterexample :
    estimateFare economy (calculateDistance 0 0 0.05 0.05)
      (calculateETA (calculateDistance 0 0 0.05 0.05)) ≠ 157 := by
  rw [eta_c1, fare_c1]
  decide

/-- C1 (amended): for pickup `(0,0)` and dropoff `(0.05, 0.05)` with the
economy rate table and average speed 30 km/h, `calculateDistance` returns
≈ 7.86 km (strictly between 7.85 and 7.87), `calculateETA` of that
distance is 16 minutes, and the fare computed by `calculateTripDetails`
as `round(baseFare + distanceKm·perKmRate + etaMinutes·perMinuteRate)`
equals 159. -/
theorem claim_C1 :
    7.85 < calculateDistance 0 0 0.05 0.05 ∧ calculateDistance 0 0 0.05 0.05 < 7.87 ∧
      calculateETA (calculateDistance 0 0 0.05 0.05) = 16 ∧
      (calculateTripDetails 0 0 economy).2.2 = 159 := by
  refine ⟨dist_c1_bounds.1, dist_c1_bounds.2, eta_c1, ?_⟩
  show estimateFare economy (calculateDistance 0 0 (0 + 0.05) (0 + 0.05))
    (calculateETA (calculateDistance 0 0 (0 + 0.05) (0 + 0.05))) = 159
  rw [show (0 : ℝ) + 0.05 = 0.05 by norm_num, eta_c1, fare_c1]

end RideHail
